import Mathlib

/-!
Verification of the anthologist batch dependency-management tool.

The embedding mirrors `src/anthologist/helpers.py` and
`src/anthologist/main.py`.  The filesystem is abstracted as a predicate
`fs : String → Bool` telling which path strings are existing directories
(`os.path.isdir`).  Each click command is embedded as a function returning
a `CmdResult`: the list of error messages printed to stderr (each one the
list of offending paths from `check_projects_exist`) together with the
ordered list of `subprocess.run` invocations (argument list and working
directory).  `subprocess.run` returns a completed-process value that the
source never inspects; the embedding models this with an exit-status
environment `env : Invocation → Int` whose value is bound and discarded,
exactly as the source discards the return value.
-/

namespace Anthologist

/-- `check_is_directory` from helpers.py: `os.path.isdir(path)` under the
filesystem abstraction `fs`. -/
def check_is_directory (fs : String → Bool) (path : String) : Bool :=
  fs path

/-- The accumulating loop inside `check_projects_exist`: starting from the
already-collected `not_directories`, append every remaining project that is
not a directory. -/
def not_directories_loop (fs : String → Bool) (acc : List String) :
    List String → List String
  | [] => acc
  | project :: rest =>
      if check_is_directory fs project then not_directories_loop fs acc rest
      else not_directories_loop fs (acc ++ [project]) rest

/-- `check_projects_exist` from helpers.py: collect the projects that are
not directories; `return not_directories or None` yields `none` when the
collected list is empty and the list itself otherwise. -/
def check_projects_exist (fs : String → Bool) (projects : List String) :
    Option (List String) :=
  let not_directories := not_directories_loop fs [] projects
  if not_directories.isEmpty then none else some not_directories

/-- One `subprocess.run(args, cwd=project)` call: the argument list and the
working directory. -/
structure Invocation where
  args : List String
  cwd : String
deriving Repr, DecidableEq

/-- Observable outcome of one click command: the messages printed to stderr
(each carrying the offending-path list) and the subprocess invocations
issued, in order. -/
structure CmdResult where
  errs : List (List String)
  invocations : List Invocation
deriving Repr, DecidableEq

/-- The per-project loop shared by all four commands: for each project, in
order, run the external command with the fixed argument list `args` and the
project as working directory.  The exit status `env inv` is obtained and
discarded, as the source discards `subprocess.run`'s return value; the loop
continues unconditionally. -/
def runLoop (env : Invocation → Int) (args : List String) :
    List String → List Invocation
  | [] => []
  | project :: rest =>
      let inv : Invocation := ⟨args, project⟩
      let _ := env inv
      inv :: runLoop env args rest

/-- Python truthiness of a string: non-empty. -/
def strTruthy (s : String) : Bool :=
  s ≠ ""

/-- Python truthiness of an optional string (`None` and `""` are falsy). -/
def optStrTruthy : Option String → Bool
  | none => false
  | some s => strTruthy s

/-- The `add` command from main.py: validate the projects, abort with an
error message when some do not exist, otherwise compose
`["poetry", "add", dep, *extra_args]` (dep carrying `=version` when the
version string is truthy; `extra_args` accumulating `--group g`,
`--optional`, `--lock` in that order) and run it once per project. -/
def add (env : Invocation → Int) (fs : String → Bool)
    (dependency version : String) (projects : List String)
    (group : Option String) (optional lock : Bool) : CmdResult :=
  match check_projects_exist fs projects with
  | some not_projects => ⟨[not_projects], []⟩
  | none =>
      let dep := if strTruthy version then dependency ++ "=" ++ version
                 else dependency
      let extra_args : List String := []
      let extra_args := if optStrTruthy group then
                          extra_args ++ ["--group", group.getD ""]
                        else extra_args
      let extra_args := if optional then extra_args ++ ["--optional"]
                        else extra_args
      let extra_args := if lock then extra_args ++ ["--lock"] else extra_args
      ⟨[], runLoop env (["poetry", "add", dep] ++ extra_args) projects⟩

/-- The `update` command from main.py: validate, abort on invalid paths,
otherwise run `["poetry", "update", *extra_args]` (with `--lock` and
`--sync` accumulated in that order) once per project. -/
def update (env : Invocation → Int) (fs : String → Bool)
    (projects : List String) (lock sync : Bool) : CmdResult :=
  match check_projects_exist fs projects with
  | some not_projects => ⟨[not_projects], []⟩
  | none =>
      let extra_args : List String := []
      let extra_args := if lock then extra_args ++ ["--lock"] else extra_args
      let extra_args := if sync then extra_args ++ ["--sync"] else extra_args
      ⟨[], runLoop env (["poetry", "update"] ++ extra_args) projects⟩

/-- The `remove` command from main.py: validate, abort on invalid paths,
otherwise run `["poetry", "remove", dependency, *extra_args]` (with
`--group g` and `--lock` accumulated in that order) once per project. -/
def remove (env : Invocation → Int) (fs : String → Bool)
    (dependency : String) (projects : List String)
    (group : Option String) (lock : Bool) : CmdResult :=
  match check_projects_exist fs projects with
  | some not_projects => ⟨[not_projects], []⟩
  | none =>
      let extra_args : List String := []
      let extra_args := if optStrTruthy group then
                          extra_args ++ ["--group", group.getD ""]
                        else extra_args
      let extra_args := if lock then extra_args ++ ["--lock"] else extra_args
      ⟨[], runLoop env (["poetry", "remove", dependency] ++ extra_args)
        projects⟩

/-- The local `cmd` variable built by the `lock` command before its loop:
`["poetry", "lock"]`, extended with `"--no-update"` when the flag is set. -/
def lock_cmd (no_update : Bool) : List String :=
  let cmd := ["poetry", "lock"]
  if no_update then cmd ++ ["--no-update"] else cmd

/-- The `lock` command from main.py: validate, abort on invalid paths,
otherwise build `cmd` (see `lock_cmd`) and loop over the projects.  The
source's loop body calls `subprocess.run(["poetry", "lock"], ...)` with the
literal list, not `cmd`, so the built `cmd` is never the list executed. -/
def lock (env : Invocation → Int) (fs : String → Bool)
    (projects : List String) (no_update : Bool) : CmdResult :=
  match check_projects_exist fs projects with
  | some not_projects => ⟨[not_projects], []⟩
  | none =>
      let _cmd := lock_cmd no_update
      ⟨[], runLoop env ["poetry", "lock"] projects⟩

/-- The dependency token composed by `add`: `dependency=version` when the
version string is truthy (non-empty), the bare dependency otherwise. -/
def add_dep_token (dependency version : String) : String :=
  if strTruthy version then dependency ++ "=" ++ version else dependency

/-- Normal form of the argument list composed by `add`. -/
def add_args (dependency version : String) (group : Option String)
    (optional lock : Bool) : List String :=
  ["poetry", "add", add_dep_token dependency version]
    ++ (if optStrTruthy group then ["--group", group.getD ""] else [])
    ++ (if optional then ["--optional"] else [])
    ++ (if lock then ["--lock"] else [])

/-- Normal form of the argument list composed by `update`. -/
def update_args (lock sync : Bool) : List String :=
  ["poetry", "update"]
    ++ (if lock then ["--lock"] else [])
    ++ (if sync then ["--sync"] else [])

/-- Normal form of the argument list composed by `remove`. -/
def remove_args (dependency : String) (group : Option String)
    (lock : Bool) : List String :=
  ["poetry", "remove", dependency]
    ++ (if optStrTruthy group then ["--group", group.getD ""] else [])
    ++ (if lock then ["--lock"] else [])

/-- Number of adjacent occurrences of the token pair `a` followed by `b`
in a list of tokens. -/
def countPair (a b : String) : List String → Nat
  | x :: y :: rest => (if x = a ∧ y = b then 1 else 0) + countPair a b (y :: rest)
  | _ => 0

theorem not_directories_loop_eq (fs : String → Bool) (acc : List String)
    (ps : List String) :
    not_directories_loop fs acc ps =
      acc ++ ps.filter (fun p => !check_is_directory fs p) := by
  induction ps generalizing acc with
  | nil => simp [not_directories_loop]
  | cons p rest ih =>
      by_cases h : check_is_directory fs p
      · simp [not_directories_loop, h, ih, List.filter]
      · simp [not_directories_loop, h, ih, List.filter]

theorem runLoop_eq_map (env : Invocation → Int) (args : List String)
    (ps : List String) :
    runLoop env args ps = ps.map (fun p => ⟨args, p⟩) := by
  induction ps with
  | nil => rfl
  | cons p rest ih => simp [runLoop, ih]

theorem add_valid (env : Invocation → Int) (fs : String → Bool)
    (dependency version : String) (projects : List String)
    (group : Option String) (optional lockFlag : Bool)
    (h : check_projects_exist fs projects = none) :
    add env fs dependency version projects group optional lockFlag =
      ⟨[], projects.map
        (fun p => ⟨add_args dependency version group optional lockFlag, p⟩)⟩ := by
  cases hg : optStrTruthy group <;> cases optional <;> cases lockFlag <;>
    simp [add, h, runLoop_eq_map, add_args, add_dep_token, hg]

theorem update_valid (env : Invocation → Int) (fs : String → Bool)
    (projects : List String) (lockFlag sync : Bool)
    (h : check_projects_exist fs projects = none) :
    update env fs projects lockFlag sync =
      ⟨[], projects.map (fun p => ⟨update_args lockFlag sync, p⟩)⟩ := by
  cases lockFlag <;> cases sync <;>
    simp [update, h, runLoop_eq_map, update_args]

theorem remove_valid (env : Invocation → Int) (fs : String → Bool)
    (dependency : String) (projects : List String)
    (group : Option String) (lockFlag : Bool)
    (h : check_projects_exist fs projects = none) :
    remove env fs dependency projects group lockFlag =
      ⟨[], projects.map
        (fun p => ⟨remove_args dependency group lockFlag, p⟩)⟩ := by
  cases hg : optStrTruthy group <;> cases lockFlag <;>
    simp [remove, h, runLoop_eq_map, remove_args, hg]

theorem lock_valid (env : Invocation → Int) (fs : String → Bool)
    (projects : List String) (no_update : Bool)
    (h : check_projects_exist fs projects = none) :
    lock env fs projects no_update =
      ⟨[], projects.map (fun p => ⟨["poetry", "lock"], p⟩)⟩ := by
  simp [lock, h, runLoop_eq_map]

theorem add_mem_args (env : Invocation → Int) (fs : String → Bool)
    (dependency version : String) (projects : List String)
    (group : Option String) (optional lockFlag : Bool) (inv : Invocation)
    (h : inv ∈ (add env fs dependency version projects group
      optional lockFlag).invocations) :
    inv.args = add_args dependency version group optional lockFlag := by
  rcases hc : check_projects_exist fs projects with _ | bad
  · rw [add_valid _ _ _ _ _ _ _ _ hc] at h
    obtain ⟨p, _, rfl⟩ := List.mem_map.mp h
    rfl
  · simp [add, hc] at h

theorem update_mem_args (env : Invocation → Int) (fs : String → Bool)
    (projects : List String) (lockFlag sync : Bool) (inv : Invocation)
    (h : inv ∈ (update env fs projects lockFlag sync).invocations) :
    inv.args = update_args lockFlag sync := by
  rcases hc : check_projects_exist fs projects with _ | bad
  · rw [update_valid _ _ _ _ _ hc] at h
    obtain ⟨p, _, rfl⟩ := List.mem_map.mp h
    rfl
  · simp [update, hc] at h

theorem remove_mem_args (env : Invocation → Int) (fs : String → Bool)
    (dependency : String) (projects : List String)
    (group : Option String) (lockFlag : Bool) (inv : Invocation)
    (h : inv ∈ (remove env fs dependency projects group lockFlag).invocations) :
    inv.args = remove_args dependency group lockFlag := by
  rcases hc : check_projects_exist fs projects with _ | bad
  · rw [remove_valid _ _ _ _ _ _ hc] at h
    obtain ⟨p, _, rfl⟩ := List.mem_map.mp h
    rfl
  · simp [remove, hc] at h

theorem lock_mem_args (env : Invocation → Int) (fs : String → Bool)
    (projects : List String) (no_update : Bool) (inv : Invocation)
    (h : inv ∈ (lock env fs projects no_update).invocations) :
    inv.args = ["poetry", "lock"] := by
  rcases hc : check_projects_exist fs projects with _ | bad
  · rw [lock_valid _ _ _ _ hc] at h
    obtain ⟨p, _, rfl⟩ := List.mem_map.mp h
    rfl
  · simp [lock, hc] at h

/-- C1: `check_projects_exist` returns exactly the subsequence (original
order preserved, duplicates kept) of the input whose entries are not
existing directories, and returns `none` exactly when that subsequence is
empty — in particular when the input is empty or every entry is an existing
directory. -/
theorem check_projects_exist_correct (fs : String → Bool) (P : List String) :
    check_projects_exist fs P =
      (if P.filter (fun p => !check_is_directory fs p) = [] then none
       else some (P.filter (fun p => !check_is_directory fs p))) := by
  unfold check_projects_exist
  rw [not_directories_loop_eq]
  simp [List.isEmpty_iff]

/-- C2 (code bug): with the no-update flag set, the `lock` command builds
`cmd = ["poetry", "lock", "--no-update"]` but then executes the literal
`["poetry", "lock"]`, so the invocation actually run contains no
`"--no-update"` token: the built command is discarded. -/
theorem lock_discards_no_update :
    lock_cmd true = ["poetry", "lock", "--no-update"] ∧
    (lock (fun _ => 0) (fun _ => true) ["p1"] true).invocations =
      [⟨["poetry", "lock"], "p1"⟩] ∧
    ∀ inv ∈ (lock (fun _ => 0) (fun _ => true) ["p1"] true).invocations,
      "--no-update" ∉ inv.args := by
  refine ⟨rfl, rfl, ?_⟩
  decide

/-- C3: whenever `check_projects_exist` reports a non-empty list of invalid
paths, every one of the four commands prints exactly that list to the error
stream and issues zero subprocess invocations. -/
theorem invalid_paths_abort (env : Invocation → Int) (fs : String → Bool)
    (dependency version : String) (projects : List String)
    (group : Option String) (optional lockFlag sync no_update : Bool)
    (bad : List String)
    (h : check_projects_exist fs projects = some bad) :
    add env fs dependency version projects group optional lockFlag =
      ⟨[bad], []⟩ ∧
    update env fs projects lockFlag sync = ⟨[bad], []⟩ ∧
    remove env fs dependency projects group lockFlag = ⟨[bad], []⟩ ∧
    lock env fs projects no_update = ⟨[bad], []⟩ :=
  ⟨by simp [add, h], by simp [update, h], by simp [remove, h],
    by simp [lock, h]⟩

theorem invalid_paths_abort_witness :
    check_projects_exist (fun _ => false) ["nope"] = some ["nope"] ∧
    (add (fun _ => 0) (fun _ => false) "requests" "" ["nope"] none false
        false = ⟨[["nope"]], []⟩ ∧
      update (fun _ => 0) (fun _ => false) ["nope"] false false =
        ⟨[["nope"]], []⟩ ∧
      remove (fun _ => 0) (fun _ => false) "requests" ["nope"] none false =
        ⟨[["nope"]], []⟩ ∧
      lock (fun _ => 0) (fun _ => false) ["nope"] false = ⟨[["nope"]], []⟩) :=
  ⟨rfl, invalid_paths_abort (fun _ => 0) (fun _ => false) "requests" ""
    ["nope"] none false false false false ["nope"] rfl⟩

/-- C4: in every subprocess invocation composed by `add`, the dependency
token (position 2 of the argument list) equals `dependency=version` when
the version string is non-empty and the bare dependency name, with no
trailing separator, when the version is the empty string. -/
theorem add_dep_token_cases (env : Invocation → Int) (fs : String → Bool)
    (dependency version : String) (projects : List String)
    (group : Option String) (optional lockFlag : Bool) (inv : Invocation)
    (h : inv ∈ (add env fs dependency version projects group optional
      lockFlag).invocations) :
    inv.args[2]? = some (if version = "" then dependency
                         else dependency ++ "=" ++ version) := by
  rw [add_mem_args _ _ _ _ _ _ _ _ _ h]
  by_cases hv : version = "" <;>
    simp [add_args, add_dep_token, strTruthy, hv]

theorem add_dep_token_cases_witness :
    ((⟨["poetry", "add", "requests=2.31.0"], "p"⟩ : Invocation) ∈
      (add (fun _ => 0) (fun _ => true) "requests" "2.31.0" ["p"] none
        false false).invocations) ∧
    (⟨["poetry", "add", "requests=2.31.0"], "p"⟩ : Invocation).args[2]? =
      some (if "2.31.0" = "" then "requests"
            else "requests" ++ "=" ++ "2.31.0") :=
  ⟨by decide, add_dep_token_cases (fun _ => 0) (fun _ => true) "requests"
    "2.31.0" ["p"] none false false _ (by decide)⟩

/-- C5: `update` with the sync flag on two valid directories runs the
update command carrying `--sync` exactly twice, first with working
directory `p1` then with `p2`; the result holds for every exit-status
environment `env`, since the loop never consults the exit status. -/
theorem update_sync_order (env : Invocation → Int) (fs : String → Bool)
    (p1 p2 : String) (lockFlag : Bool)
    (h1 : check_is_directory fs p1 = true)
    (h2 : check_is_directory fs p2 = true) :
    ∃ args, (update env fs [p1, p2] lockFlag true).invocations =
        [⟨args, p1⟩, ⟨args, p2⟩] ∧ "--sync" ∈ args := by
  have hv : check_projects_exist fs [p1, p2] = none := by
    unfold check_projects_exist
    rw [not_directories_loop_eq]
    simp [h1, h2]
  refine ⟨update_args lockFlag true, ?_, ?_⟩
  · rw [update_valid _ _ _ _ _ hv]
    rfl
  · cases lockFlag <;> simp [update_args]

theorem update_sync_order_witness :
    check_is_directory (fun _ => true) "p1" = true ∧
    check_is_directory (fun _ => true) "p2" = true ∧
    ∃ args, (update (fun _ => 0) (fun _ => true) ["p1", "p2"] false
        true).invocations = [⟨args, "p1"⟩, ⟨args, "p2"⟩] ∧ "--sync" ∈ args :=
  ⟨rfl, rfl,
    update_sync_order (fun _ => 0) (fun _ => true) "p1" "p2" false rfl rfl⟩

/-- C6: with group `"dev"`, every argument list composed by `remove`
contains the adjacent token pair `--group` followed by `dev` exactly
once. -/
theorem remove_group_dev_once (env : Invocation → Int) (fs : String → Bool)
    (dependency : String) (projects : List String) (lockFlag : Bool)
    (inv : Invocation)
    (h : inv ∈ (remove env fs dependency projects (some "dev")
      lockFlag).invocations) :
    countPair "--group" "dev" inv.args = 1 := by
  rw [remove_mem_args _ _ _ _ _ _ _ h]
  cases lockFlag <;>
    simp [remove_args, optStrTruthy, strTruthy, countPair]

theorem remove_group_dev_once_witness :
    ((⟨["poetry", "remove", "requests", "--group", "dev", "--lock"], "p"⟩ :
        Invocation) ∈
      (remove (fun _ => 0) (fun _ => true) "requests" ["p"] (some "dev")
        true).invocations) ∧
    countPair "--group" "dev"
      (⟨["poetry", "remove", "requests", "--group", "dev", "--lock"], "p"⟩ :
        Invocation).args = 1 :=
  ⟨by decide, remove_group_dev_once (fun _ => 0) (fun _ => true) "requests"
    ["p"] true _ (by decide)⟩

/-- C7: for every operation, all subprocess invocations of one run share
one and the same argument list — the list composed once before the loop —
so the working directory is the only per-invocation difference. -/
theorem args_built_once (env : Invocation → Int) (fs : String → Bool)
    (dependency version : String) (projects : List String)
    (group : Option String) (optional lockFlag sync no_update : Bool) :
    (∀ inv1 ∈ (add env fs dependency version projects group optional
        lockFlag).invocations,
      ∀ inv2 ∈ (add env fs dependency version projects group optional
        lockFlag).invocations, inv1.args = inv2.args) ∧
    (∀ inv1 ∈ (update env fs projects lockFlag sync).invocations,
      ∀ inv2 ∈ (update env fs projects lockFlag sync).invocations,
        inv1.args = inv2.args) ∧
    (∀ inv1 ∈ (remove env fs dependency projects group lockFlag).invocations,
      ∀ inv2 ∈ (remove env fs dependency projects group lockFlag).invocations,
        inv1.args = inv2.args) ∧
    (∀ inv1 ∈ (lock env fs projects no_update).invocations,
      ∀ inv2 ∈ (lock env fs projects no_update).invocations,
        inv1.args = inv2.args) := by
  refine ⟨?_, ?_, ?_, ?_⟩
  · intro inv1 h1 inv2 h2
    rw [add_mem_args _ _ _ _ _ _ _ _ _ h1, add_mem_args _ _ _ _ _ _ _ _ _ h2]
  · intro inv1 h1 inv2 h2
    rw [update_mem_args _ _ _ _ _ _ h1, update_mem_args _ _ _ _ _ _ h2]
  · intro inv1 h1 inv2 h2
    rw [remove_mem_args _ _ _ _ _ _ _ h1, remove_mem_args _ _ _ _ _ _ _ h2]
  · intro inv1 h1 inv2 h2
    rw [lock_mem_args _ _ _ _ _ h1, lock_mem_args _ _ _ _ _ h2]

theorem args_built_once_witness :
    (∀ inv1 ∈ (add (fun _ => 0) (fun _ => true) "requests" "1.0" ["a", "b"]
        (some "dev") true true).invocations,
      ∀ inv2 ∈ (add (fun _ => 0) (fun _ => true) "requests" "1.0" ["a", "b"]
        (some "dev") true true).invocations, inv1.args = inv2.args) ∧
    (∀ inv1 ∈ (update (fun _ => 0) (fun _ => true) ["a", "b"] true
        true).invocations,
      ∀ inv2 ∈ (update (fun _ => 0) (fun _ => true) ["a", "b"] true
        true).invocations, inv1.args = inv2.args) ∧
    (∀ inv1 ∈ (remove (fun _ => 0) (fun _ => true) "requests" ["a", "b"]
        (some "dev") true).invocations,
      ∀ inv2 ∈ (remove (fun _ => 0) (fun _ => true) "requests" ["a", "b"]
        (some "dev") true).invocations, inv1.args = inv2.args) ∧
    (∀ inv1 ∈ (lock (fun _ => 0) (fun _ => true) ["a", "b"]
        true).invocations,
      ∀ inv2 ∈ (lock (fun _ => 0) (fun _ => true) ["a", "b"]
        true).invocations, inv1.args = inv2.args) :=
  args_built_once (fun _ => 0) (fun _ => true) "requests" "1.0" ["a", "b"]
    (some "dev") true true true true

/-- C8: with the empty project list, validation returns no invalid paths
and every operation performs zero subprocess invocations. -/
theorem empty_projects (env : Invocation → Int) (fs : String → Bool)
    (dependency version : String) (group : Option String)
    (optional lockFlag sync no_update : Bool) :
    check_projects_exist fs [] = none ∧
    (add env fs dependency version [] group optional lockFlag).invocations =
      [] ∧
    (update env fs [] lockFlag sync).invocations = [] ∧
    (remove env fs dependency [] group lockFlag).invocations = [] ∧
    (lock env fs [] no_update).invocations = [] :=
  ⟨rfl, rfl, rfl, rfl, rfl⟩

/-- C9: on a validated project list, every operation issues exactly one
subprocess invocation per list entry, the i-th invocation working in the
i-th entry — so duplicates are not deduplicated: the invocations' working
directories are exactly the project list. -/
theorem one_invocation_per_project (env : Invocation → Int)
    (fs : String → Bool) (dependency version : String)
    (projects : List String) (group : Option String)
    (optional lockFlag sync no_update : Bool)
    (h : check_projects_exist fs projects = none) :
    ((add env fs dependency version projects group optional
        lockFlag).invocations.map Invocation.cwd = projects ∧
      (add env fs dependency version projects group optional
        lockFlag).invocations.length = projects.length) ∧
    ((update env fs projects lockFlag sync).invocations.map Invocation.cwd =
        projects ∧
      (update env fs projects lockFlag sync).invocations.length =
        projects.length) ∧
    ((remove env fs dependency projects group lockFlag).invocations.map
        Invocation.cwd = projects ∧
      (remove env fs dependency projects group lockFlag).invocations.length =
        projects.length) ∧
    ((lock env fs projects no_update).invocations.map Invocation.cwd =
        projects ∧
      (lock env fs projects no_update).invocations.length =
        projects.length) := by
  rw [add_valid _ _ _ _ _ _ _ _ h, update_valid _ _ _ _ _ h,
    remove_valid _ _ _ _ _ _ h, lock_valid _ _ _ _ h]
  simp [Function.comp_def]

theorem one_invocation_per_project_witness :
    check_projects_exist (fun _ => true) ["a", "b", "a"] = none ∧
    (((add (fun _ => 0) (fun _ => true) "d" "" ["a", "b", "a"] none false
        false).invocations.map Invocation.cwd = ["a", "b", "a"] ∧
      (add (fun _ => 0) (fun _ => true) "d" "" ["a", "b", "a"] none false
        false).invocations.length = (["a", "b", "a"] : List String).length) ∧
    ((update (fun _ => 0) (fun _ => true) ["a", "b", "a"] false
        false).invocations.map Invocation.cwd = ["a", "b", "a"] ∧
      (update (fun _ => 0) (fun _ => true) ["a", "b", "a"] false
        false).invocations.length = (["a", "b", "a"] : List String).length) ∧
    ((remove (fun _ => 0) (fun _ => true) "d" ["a", "b", "a"] none
        false).invocations.map Invocation.cwd = ["a", "b", "a"] ∧
      (remove (fun _ => 0) (fun _ => true) "d" ["a", "b", "a"] none
        false).invocations.length = (["a", "b", "a"] : List String).length) ∧
    ((lock (fun _ => 0) (fun _ => true) ["a", "b", "a"]
        false).invocations.map Invocation.cwd = ["a", "b", "a"] ∧
      (lock (fun _ => 0) (fun _ => true) ["a", "b", "a"]
        false).invocations.length = (["a", "b", "a"] : List String).length)) :=
  ⟨rfl, one_invocation_per_project (fun _ => 0) (fun _ => true) "d" ""
    ["a", "b", "a"] none false false false false rfl⟩

/-- C10: every argument list composed by `add` is exactly the verb and the
dependency token followed by the optional segments in the fixed relative
order `--group g`, then `--optional`, then `--lock`, for every combination
of the group, optional and lock options. -/
theorem add_flag_order (env : Invocation → Int) (fs : String → Bool)
    (dependency version : String) (projects : List String)
    (group : Option String) (optional lockFlag : Bool) (inv : Invocation)
    (h : inv ∈ (add env fs dependency version projects group optional
      lockFlag).invocations) :
    inv.args = ["poetry", "add", add_dep_token dependency version]
      ++ (if optStrTruthy group then ["--group", group.getD ""] else [])
      ++ (if optional then ["--optional"] else [])
      ++ (if lockFlag then ["--lock"] else []) := by
  rw [add_mem_args _ _ _ _ _ _ _ _ _ h]
  rfl

theorem add_flag_order_witness :
    ((⟨["poetry", "add", "d=1.0", "--group", "dev", "--optional", "--lock"],
        "p"⟩ : Invocation) ∈
      (add (fun _ => 0) (fun _ => true) "d" "1.0" ["p"] (some "dev") true
        true).invocations) ∧
    (⟨["poetry", "add", "d=1.0", "--group", "dev", "--optional", "--lock"],
        "p"⟩ : Invocation).args =
      ["poetry", "add", add_dep_token "d" "1.0"]
        ++ (if optStrTruthy (some "dev") then
              ["--group", (some "dev" : Option String).getD ""] else [])
        ++ (if true then ["--optional"] else [])
        ++ (if true then ["--lock"] else []) :=
  ⟨by decide, add_flag_order (fun _ => 0) (fun _ => true) "d" "1.0" ["p"]
    (some "dev") true true _ (by decide)⟩

end Anthologist
